import Mathlib

/-!
Shallow embedding of `src/static/js/main.js` of the smart-attendance
front-end: the credential store (localStorage `token` / `admin` keys), the
DOM regions the script touches (`error-message`, `attendance-table`,
`admin-name`, `filter-input`), and the five operations `login`, `logout`,
`checkAuth`, `loadAttendance`, `filterAttendance`, `downloadReport`.
Network responses are passed as explicit oracle parameters; every request
the code issues is appended to an `issuedRequests` log so that
"no network request is sent" is a provable statement about the log.
-/

set_option autoImplicit false

namespace SmartAttendance

/-- JavaScript string truthiness for a `localStorage.getItem` result:
`null` and the empty string are falsy, every other string is truthy. -/
def jsTruthy : Option String → Bool
  | some s => s != ""
  | none => false

/-- JavaScript `a || b` over a possibly-absent string `a`: the default `b`
is used when `a` is `null`/`undefined` or the empty string. -/
def jsOr (v : Option String) (d : String) : String :=
  match v with
  | some s => if s = "" then d else s
  | none => d

/-- Setting `textContent` from a possibly-null string: the DOM treats a
null assignment as the empty string. -/
def jsToText : Option String → String
  | some s => s
  | none => ""

/-- JavaScript `toLowerCase()`, modelled character by character. -/
def jsLower (s : String) : String :=
  ⟨s.data.map Char.toLower⟩

/-- `b.isPrefixSeq a`-style check: `isPrefixSeq pat s` holds when `pat` is
an initial segment of `s` (character lists). -/
def isPrefixSeq : List Char → List Char → Bool
  | [], _ => true
  | _ :: _, [] => false
  | a :: as, b :: bs => a == b && isPrefixSeq as bs

/-- `containsSeq pat s`: `pat` occurs as a contiguous subsequence of `s`.
This is the semantics of JavaScript `String.prototype.includes`. -/
def containsSeq (pat : List Char) : List Char → Bool
  | [] => pat.isEmpty
  | c :: rest => isPrefixSeq pat (c :: rest) || containsSeq pat rest

/-- `strContains s q`: the string `s` contains `q` as a substring
(JavaScript `s.includes(q)`). -/
def strContains (s q : String) : Bool :=
  containsSeq q.toList s.toList

/-- The two localStorage keys the script uses. -/
structure Store where
  token : Option String
  admin : Option String
deriving DecidableEq, Repr

/-- One `<tr>` of the attendance table: its cell texts and whether its
`style.display` leaves it visible. -/
structure Row where
  cells : List String
  display : Bool
deriving DecidableEq, Repr

/-- An HTTP request the client issued: target URL and the value of the
`Authorization` header, when one was attached. -/
structure Request where
  url : String
  auth : Option String
deriving DecidableEq, Repr

/-- The state the script reads and writes: the credential store, the
current page (`window.location.href` target), the DOM regions, and the
observable effect logs (alerts, triggered downloads, issued requests). -/
structure St where
  store : Store
  location : String
  errorMsg : String
  adminNameEl : Option String
  tableRows : List Row
  filterInput : String
  alerts : List String
  downloads : List String
  issuedRequests : List Request
deriving DecidableEq, Repr

/-- An attendance record as the renderer reads it: each of the duck-typed
fields may be absent. -/
structure Record where
  name : Option String
  user : Option String
  time : Option String
  timestamp : Option String
  status : Option String
deriving DecidableEq, Repr

/-- A fetch outcome: an HTTP response with a status and a parsed body, or
a transport-level failure (the promise rejected, landing in `catch`). -/
inductive NetResult (β : Type) where
  | response (status : Nat) (body : β)
  | netError
deriving DecidableEq, Repr

/-- JSON body of a successful login response: the bearer token and the
identity descriptor (already in its stored, stringified form). -/
structure LoginResp where
  access_token : String
  adminJson : String
deriving DecidableEq, Repr

/-- Login response oracle: status, the response text read on failure
(`null` when `res.text()` itself failed), and the parsed JSON body. -/
inductive LoginNet where
  | response (status : Nat) (errText : Option String) (body : LoginResp)
  | netError
deriving DecidableEq, Repr

def BACKEND_URL : String := "http://127.0.0.1:8000"

def attendanceUrl : String := BACKEND_URL ++ "/attendance"

/-- The GET request `loadAttendance` and `downloadReport` issue. -/
def attendanceRequest (token : String) : Request :=
  { url := attendanceUrl, auth := some ("Bearer " ++ token) }

/-- The POST request `login` issues (no bearer credential attached). -/
def loginRequest : Request :=
  { url := BACKEND_URL ++ "/admin/login", auth := none }

/-- `Response.ok`: status in the 2xx range. -/
def respOk (status : Nat) : Bool :=
  decide (200 ≤ status) && decide (status ≤ 299)

/-- `login(email, password)`: issues the form-encoded POST; on a non-ok
status throws `Login failed: ` plus the response text (or the raw status
when no text is available) without touching the store; on success writes
`token` and the stringified admin descriptor into the store. -/
def login (st : St) (_email _password : String) (net : LoginNet) :
    St × Except String LoginResp :=
  let st1 := { st with issuedRequests := st.issuedRequests ++ [loginRequest] }
  match net with
  | .netError => (st1, .error "Failed to fetch")
  | .response stat errText body =>
    if respOk stat then
      ({ st1 with store := { token := some body.access_token,
                             admin := some body.adminJson } },
       .ok body)
    else
      (st1, .error ("Login failed: " ++ jsOr errText (Nat.repr stat)))

/-- `logout()`: removes both localStorage keys and navigates to
`index.html`. -/
def logout (st : St) : St :=
  { st with store := { token := none, admin := none }, location := "index.html" }

/-- `checkAuth()`: reads the `admin` key; when it is falsy, sets
`window.location.href` to `index.html` — and then, with no early return,
still runs the rest of the function, writing the (possibly null) admin
value into the `admin-name` element when that element exists. -/
def checkAuth (st : St) : St :=
  let admin := st.store.admin
  let st1 := if jsTruthy admin then st else { st with location := "index.html" }
  match st1.adminNameEl with
  | none => st1
  | some _ => { st1 with adminNameEl := some (jsToText admin) }

/-- One rendered record row: 1-based sequence number, identity with the
`name`-then-`user` fallback, time with the `time`-then-`timestamp`
fallback (placeholder glyph when both are falsy), and status defaulting
to `Present`. -/
def renderRecord (index : Nat) (r : Record) : Row :=
  { cells := [Nat.repr (index + 1),
              jsOr r.name (jsOr r.user "—"),
              jsOr r.time (jsOr r.timestamp "—"),
              jsOr r.status "Present"],
    display := true }

/-- The `forEach((record, index) => ...)` loop, carrying the index. -/
def renderRows : Nat → List Record → List Row
  | _, [] => []
  | i, r :: rs => renderRecord i r :: renderRows (i + 1) rs

/-- The placeholder row written for an empty record set. -/
def noDataRow : Row :=
  { cells := ["No attendance data found."], display := true }

/-- The table contents `loadAttendance` writes for a 200 response body:
the single placeholder row when the set is empty, else one row per
record in order. -/
def renderTable (data : List Record) : List Row :=
  if data.length = 0 then [noDataRow] else renderRows 0 data

/-- `loadAttendance()`: redirects without fetching when the stored token
is falsy; otherwise issues the bearer-authenticated GET and classifies
the outcome: 200 renders the table, 401 shows the unauthorized message
and invokes `logout()`, any other status shows the load-failure message,
and a transport failure shows the unreachable message. -/
def loadAttendance (st : St) (net : NetResult (List Record)) : St :=
  match st.store.token with
  | none => { st with location := "index.html" }
  | some t =>
    if t = "" then { st with location := "index.html" }
    else
      let st1 := { st with issuedRequests := st.issuedRequests ++ [attendanceRequest t] }
      match net with
      | .response stat body =>
        if stat = 200 then { st1 with tableRows := renderTable body }
        else if stat = 401 then
          logout { st1 with errorMsg := "Unauthorized. Please log in again." }
        else { st1 with errorMsg := "Failed to load attendance data." }
      | .netError => { st1 with errorMsg := "Server unreachable." }

/-- One row pass of `filterAttendance`: visibility is toggled on whether
the lower-cased identity cell (`cells[1]`, the empty string when the row
has no such cell) contains the already-lower-cased query. -/
def filterRow (query : String) (row : Row) : Row :=
  let name := jsToText ((row.cells.get? 1).map jsLower)
  { row with display := strContains name query }

/-- `filterAttendance()`: lower-cases the filter input and toggles every
row of the attendance table; touches nothing else. -/
def filterAttendance (st : St) : St :=
  { st with tableRows := st.tableRows.map (filterRow (jsLower st.filterInput)) }

/-- `downloadReport()`: prompts and stops when the stored token is falsy;
otherwise issues the bearer-authenticated GET; 200 triggers the fixed-name
download, any other status alerts the download-failure notice, transport
failure alerts the unreachable notice. -/
def downloadReport (st : St) (net : NetResult String) : St :=
  match st.store.token with
  | none => { st with alerts := st.alerts ++ ["Please log in first."] }
  | some t =>
    if t = "" then { st with alerts := st.alerts ++ ["Please log in first."] }
    else
      let st1 := { st with issuedRequests := st.issuedRequests ++ [attendanceRequest t] }
      match net with
      | .response stat _ =>
        if stat = 200 then { st1 with downloads := st1.downloads ++ ["attendance_report.csv"] }
        else { st1 with alerts := st1.alerts ++ ["Failed to download report."] }
      | .netError => { st1 with alerts := st1.alerts ++ ["Server unreachable."] }

/-- A sample logged-in dashboard state used by concrete witnesses. -/
def sampleSt : St :=
  { store := { token := some "tok", admin := some "Admin" },
    location := "dashboard.html",
    errorMsg := "",
    adminNameEl := some "Admin",
    tableRows := [],
    filterInput := "",
    alerts := [],
    downloads := [],
    issuedRequests := [] }

theorem containsSeq_nil_pat (l : List Char) : containsSeq [] l = true := by
  cases l with
  | nil => rfl
  | cons c rest => simp [containsSeq, isPrefixSeq]

theorem strContains_empty (s : String) : strContains s "" = true := by
  simpa [strContains] using containsSeq_nil_pat s.toList

theorem renderRows_length (k : Nat) (l : List Record) :
    (renderRows k l).length = l.length := by
  induction l generalizing k with
  | nil => rfl
  | cons r rs ih => simp [renderRows, ih]

theorem renderRows_get? (l : List Record) (k i : Nat) :
    (renderRows k l).get? i = (l.get? i).map (renderRecord (k + i)) := by
  induction l generalizing k i with
  | nil => simp [renderRows]
  | cons r rs ih =>
    cases i with
    | zero => simp [renderRows]
    | succ j =>
      have hk : k + 1 + j = k + (j + 1) := by omega
      simp only [renderRows, List.get?_cons_succ]
      rw [ih (k + 1) j, hk]

/-- C1: when the attendance fetch comes back with HTTP 401, the error
region shows "Unauthorized. Please log in again.", both localStorage keys
are removed, and the page navigates to `index.html`, whatever the prior
stored state was. -/
theorem c1_unauthorized_clears_credentials_and_redirects
    (st : St) (t : String) (body : List Record)
    (htok : st.store.token = some t) (hne : t ≠ "") :
    (loadAttendance st (.response 401 body)).errorMsg =
        "Unauthorized. Please log in again." ∧
    (loadAttendance st (.response 401 body)).store.token = none ∧
    (loadAttendance st (.response 401 body)).store.admin = none ∧
    (loadAttendance st (.response 401 body)).location = "index.html" := by
  simp [loadAttendance, htok, hne, logout]

theorem c1_witness :
    (loadAttendance sampleSt (.response 401 [])).errorMsg =
        "Unauthorized. Please log in again." ∧
    (loadAttendance sampleSt (.response 401 [])).store.token = none ∧
    (loadAttendance sampleSt (.response 401 [])).store.admin = none ∧
    (loadAttendance sampleSt (.response 401 [])).location = "index.html" :=
  c1_unauthorized_clears_credentials_and_redirects sampleSt "tok" [] rfl (by decide)

/-- C3: with a falsy stored token, neither the attendance load nor the
export issues any network request: the request log is unchanged, the load
redirects to the entry page and the export prompts for login. -/
theorem c3_no_request_without_token
    (st : St) (netA : NetResult (List Record)) (netB : NetResult String)
    (h : jsTruthy st.store.token = false) :
    (loadAttendance st netA).issuedRequests = st.issuedRequests ∧
    (loadAttendance st netA).location = "index.html" ∧
    (downloadReport st netB).issuedRequests = st.issuedRequests ∧
    (downloadReport st netB).alerts = st.alerts ++ ["Please log in first."] := by
  cases htok : st.store.token with
  | none => simp [loadAttendance, downloadReport, htok]
  | some t =>
    have ht : t = "" := by
      by_contra hne
      simp [htok, jsTruthy, hne] at h
    subst ht
    simp [loadAttendance, downloadReport, htok]

theorem c3_witness :
    (loadAttendance { sampleSt with store := { token := none, admin := some "Admin" } }
        (.response 200 [])).issuedRequests =
      ({ sampleSt with store := { token := none, admin := some "Admin" } } : St).issuedRequests ∧
    (loadAttendance { sampleSt with store := { token := none, admin := some "Admin" } }
        (.response 200 [])).location = "index.html" ∧
    (downloadReport { sampleSt with store := { token := none, admin := some "Admin" } }
        (.response 200 "csv")).issuedRequests =
      ({ sampleSt with store := { token := none, admin := some "Admin" } } : St).issuedRequests ∧
    (downloadReport { sampleSt with store := { token := none, admin := some "Admin" } }
        (.response 200 "csv")).alerts =
      ({ sampleSt with store := { token := none, admin := some "Admin" } } : St).alerts ++
        ["Please log in first."] :=
  c3_no_request_without_token _ _ _ (by decide)

/-- C8: rendering the empty record set yields exactly the single
"No attendance data found." placeholder row — one row, never zero — and a
200 response with an empty body leaves the error region untouched. -/
theorem c8_render_empty_placeholder :
    renderTable [] = [{ cells := ["No attendance data found."], display := true }] ∧
    (renderTable []).length = 1 ∧
    (loadAttendance sampleSt (.response 200 [])).tableRows =
      [{ cells := ["No attendance data found."], display := true }] ∧
    (loadAttendance sampleSt (.response 200 [])).errorMsg = sampleSt.errorMsg := by
  refine ⟨rfl, rfl, ?_, ?_⟩ <;> simp [loadAttendance, sampleSt, renderTable, noDataRow]

/-- C10: a non-ok HTTP status makes `login` throw `Login failed: ...`
before any store write, so both stored keys — whatever a previous session
left there — are unchanged. -/
theorem c10_failed_login_leaves_store_unchanged
    (st : St) (e p : String) (s : Nat) (errText : Option String) (body : LoginResp)
    (h : respOk s = false) :
    (login st e p (.response s errText body)).1.store = st.store ∧
    (login st e p (.response s errText body)).2 =
      .error ("Login failed: " ++ jsOr errText (Nat.repr s)) := by
  simp [login, h]

theorem c10_witness :
    (login sampleSt "admin@example.com" "wrong"
        (.response 401 (some "bad credentials") ⟨"X", "Y"⟩)).1.store = sampleSt.store ∧
    (login sampleSt "admin@example.com" "wrong"
        (.response 401 (some "bad credentials") ⟨"X", "Y"⟩)).2 =
      .error ("Login failed: " ++ jsOr (some "bad credentials") (Nat.repr 401)) :=
  c10_failed_login_leaves_store_unchanged sampleSt "admin@example.com" "wrong"
    401 (some "bad credentials") ⟨"X", "Y"⟩ (by decide)

/-- The record set of the spec scenario: one record with a `name` and a
`status`, one with only a `user`. -/
def c4Data : List Record :=
  [{ name := some "A", user := none, time := none, timestamp := none,
     status := some "present" },
   { name := none, user := some "B", time := none, timestamp := none,
     status := none }]

/-- C4: rendering a non-empty record set produces exactly one row per
record, in input order; row `i` carries the 1-based sequence number
`i + 1`, the identity under the `name`-then-`user` fallback (else the
placeholder glyph), the time under the `time`-then-`timestamp` fallback
(else the placeholder glyph), and the status defaulting to `Present`. -/
theorem c4_render_row_per_record
    (data : List Record) (i : Nat) (r : Record)
    (hne : data ≠ []) (hi : data.get? i = some r) :
    (renderTable data).length = data.length ∧
    (renderTable data).get? i =
      some { cells := [Nat.repr (i + 1),
                       jsOr r.name (jsOr r.user "—"),
                       jsOr r.time (jsOr r.timestamp "—"),
                       jsOr r.status "Present"],
             display := true } := by
  have hlen : data.length ≠ 0 := fun h => hne (List.length_eq_zero.mp h)
  constructor
  · simp [renderTable, hlen, renderRows_length]
  · rw [renderTable, if_neg hlen, renderRows_get? data 0 i, hi]
    simp [renderRecord]

theorem c4_witness :
    (renderTable c4Data).length = 2 ∧
    (renderTable c4Data).get? 1 =
      some { cells := ["2", "B", "—", "Present"], display := true } := by
  have h := c4_render_row_per_record c4Data 1
    { name := none, user := some "B", time := none, timestamp := none,
      status := none } (by decide) (by decide)
  exact ⟨h.1, by rw [h.2]; decide⟩

/-- The request log entry left by one attendance GET with token `t`. -/
theorem loadAttendance_issued (st : St) (net : NetResult (List Record)) (t : String)
    (htok : st.store.token = some t) (hne : t ≠ "") :
    (loadAttendance st net).issuedRequests =
      st.issuedRequests ++ [attendanceRequest t] := by
  cases net with
  | response stat body =>
    by_cases h200 : stat = 200
    · simp [loadAttendance, htok, hne, h200]
    · by_cases h401 : stat = 401
      · simp [loadAttendance, htok, hne, h200, h401, logout]
      · simp [loadAttendance, htok, hne, h200, h401]
  | netError => simp [loadAttendance, htok, hne]

/-- C5: a successful login whose body carries `access_token` `tok` leaves
`tok` in the store, and any subsequent attendance fetch from that state
issues exactly one request to the attendance endpoint carrying the header
value `Bearer tok`. -/
theorem c5_login_stores_token_and_bearer_header
    (st : St) (e p : String) (s : Nat) (errText : Option String)
    (tok adminJ : String) (net : NetResult (List Record))
    (hok : respOk s = true) (hne : tok ≠ "") :
    (login st e p (.response s errText ⟨tok, adminJ⟩)).1.store.token = some tok ∧
    (login st e p (.response s errText ⟨tok, adminJ⟩)).2 = .ok ⟨tok, adminJ⟩ ∧
    (loadAttendance (login st e p (.response s errText ⟨tok, adminJ⟩)).1 net).issuedRequests =
      (login st e p (.response s errText ⟨tok, adminJ⟩)).1.issuedRequests ++
        [{ url := attendanceUrl, auth := some ("Bearer " ++ tok) }] := by
  refine ⟨by simp [login, hok], by simp [login, hok], ?_⟩
  have htok : (login st e p (.response s errText ⟨tok, adminJ⟩)).1.store.token = some tok := by
    simp [login, hok]
  simpa [attendanceRequest] using
    loadAttendance_issued (login st e p (.response s errText ⟨tok, adminJ⟩)).1 net tok htok hne

theorem c5_witness :
    (login sampleSt "admin@example.com" "correct"
        (.response 200 none ⟨"T", "Admin"⟩)).1.store.token = some "T" ∧
    (login sampleSt "admin@example.com" "correct"
        (.response 200 none ⟨"T", "Admin"⟩)).2 = .ok ⟨"T", "Admin"⟩ ∧
    (loadAttendance (login sampleSt "admin@example.com" "correct"
        (.response 200 none ⟨"T", "Admin"⟩)).1 (.response 200 [])).issuedRequests =
      (login sampleSt "admin@example.com" "correct"
        (.response 200 none ⟨"T", "Admin"⟩)).1.issuedRequests ++
        [{ url := attendanceUrl, auth := some ("Bearer " ++ "T") }] :=
  c5_login_stores_token_and_bearer_header sampleSt "admin@example.com" "correct"
    200 none "T" "Admin" (.response 200 []) (by decide) (by decide)

/-- C9: re-rendering the same 200 response is idempotent — the second
call overwrites the table with the same rows and leaves the error region
as the first call did — and the first call's table is exactly the pure
rendering of the record set. -/
theorem c9_render_idempotent (st : St) (data : List Record) (t : String)
    (htok : st.store.token = some t) (hne : t ≠ "") :
    (loadAttendance (loadAttendance st (.response 200 data)) (.response 200 data)).tableRows =
      (loadAttendance st (.response 200 data)).tableRows ∧
    (loadAttendance (loadAttendance st (.response 200 data)) (.response 200 data)).errorMsg =
      (loadAttendance st (.response 200 data)).errorMsg ∧
    (loadAttendance st (.response 200 data)).tableRows = renderTable data := by
  refine ⟨?_, ?_, ?_⟩ <;> simp [loadAttendance, htok, hne]

theorem c9_witness :
    (loadAttendance (loadAttendance sampleSt (.response 200 c4Data))
        (.response 200 c4Data)).tableRows =
      (loadAttendance sampleSt (.response 200 c4Data)).tableRows ∧
    (loadAttendance (loadAttendance sampleSt (.response 200 c4Data))
        (.response 200 c4Data)).errorMsg =
      (loadAttendance sampleSt (.response 200 c4Data)).errorMsg ∧
    (loadAttendance sampleSt (.response 200 c4Data)).tableRows = renderTable c4Data :=
  c9_render_idempotent sampleSt c4Data "tok" rfl (by decide)

/-- A state with no stored token but a stored identity descriptor. -/
def c2NoTokenWithAdmin : St :=
  { sampleSt with store := { token := none, admin := some "Admin" } }

/-- A state with neither key stored and old text in the name element. -/
def c2NoTokenNoAdmin : St :=
  { sampleSt with
    store := { token := none, admin := none },
    adminNameEl := some "Old" }

/-- C2 counterexample: `checkAuth` keys on the `admin` entry, not the
token, and has no early return. With the token absent but an identity
descriptor present, no navigation is triggered at all; with both absent,
navigation is triggered yet the guard's remaining logic still runs,
overwriting the name element's prior text with the empty string. -/
theorem c2_counterexample :
    c2NoTokenWithAdmin.store.token = none ∧
    (checkAuth c2NoTokenWithAdmin).location = "dashboard.html" ∧
    (checkAuth c2NoTokenWithAdmin).location ≠ "index.html" ∧
    c2NoTokenNoAdmin.store.token = none ∧
    (checkAuth c2NoTokenNoAdmin).location = "index.html" ∧
    c2NoTokenNoAdmin.adminNameEl = some "Old" ∧
    (checkAuth c2NoTokenNoAdmin).adminNameEl = some "" := by
  refine ⟨rfl, rfl, by decide, rfl, rfl, rfl, rfl⟩

/-- C2 (amended): whenever the identity descriptor (`admin` entry) is
falsy in the store, the guard triggers navigation to `index.html`; it
does not stop there — the rest of the guard still executes, rewriting the
`admin-name` element (when it exists) with the stored admin value, i.e.
the empty string in this case. -/
theorem c2_guard_keys_on_identity (st : St)
    (h : jsTruthy st.store.admin = false) :
    (checkAuth st).location = "index.html" ∧
    (checkAuth st).adminNameEl = st.adminNameEl.map (fun _ => jsToText st.store.admin) := by
  cases hEl : st.adminNameEl with
  | none => simp [checkAuth, h, hEl]
  | some old => simp [checkAuth, h, hEl]

theorem c2_witness :
    (checkAuth { sampleSt with store := { token := some "tok", admin := none } }).location =
      "index.html" ∧
    (checkAuth { sampleSt with store := { token := some "tok", admin := none } }).adminNameEl =
      some "" := by
  have h := c2_guard_keys_on_identity
    { sampleSt with store := { token := some "tok", admin := none } } (by decide)
  exact ⟨h.1, by rw [h.2]; rfl⟩


/-- A rendered two-row table with a filter query typed in. -/
def c6St : St :=
  { sampleSt with
    tableRows := [{ cells := ["1", "Alice", "09:00", "Present"], display := true },
                  { cells := ["2", "Bob", "09:05", "Present"], display := true }],
    filterInput := "ali" }

/-- C6: the filter issues no network request, keeps every row (same count,
same cells), and sets row `i` visible exactly when its lower-cased
identity cell (`cells[1]`, the empty string when missing) contains the
lower-cased query as a substring; the empty query leaves every row
visible. -/
theorem c6_filter_shows_matching_rows (st : St) (i : Nat) (r : Row)
    (hr : st.tableRows.get? i = some r) :
    (filterAttendance st).issuedRequests = st.issuedRequests ∧
    (filterAttendance st).tableRows.length = st.tableRows.length ∧
    (filterAttendance st).tableRows.get? i =
      some { cells := r.cells,
             display := strContains (jsToText ((r.cells.get? 1).map jsLower))
                          (jsLower st.filterInput) } ∧
    (st.filterInput = "" →
      (filterAttendance st).tableRows.get? i = some { cells := r.cells, display := true }) := by
  have hmap : (st.tableRows.map (filterRow (jsLower st.filterInput))).get? i =
      some (filterRow (jsLower st.filterInput) r) := by
    rw [List.get?_eq_getElem?, List.getElem?_map, ← List.get?_eq_getElem?, hr,
      Option.map_some']
  refine ⟨rfl, by simp [filterAttendance], ?_, ?_⟩
  · show (st.tableRows.map (filterRow (jsLower st.filterInput))).get? i = _
    rw [hmap]
    rfl
  · intro hq
    show (st.tableRows.map (filterRow (jsLower st.filterInput))).get? i = _
    rw [hmap, hq]
    have hdisp : filterRow (jsLower "") r = { cells := r.cells, display := true } := by
      simp [filterRow, jsLower, strContains_empty]
    rw [hdisp]

theorem c6_witness :
    (filterAttendance c6St).issuedRequests = c6St.issuedRequests ∧
    (filterAttendance c6St).tableRows.length = c6St.tableRows.length ∧
    (filterAttendance c6St).tableRows.get? 0 =
      some { cells := ["1", "Alice", "09:00", "Present"], display := true } ∧
    (filterAttendance c6St).tableRows.get? 1 =
      some { cells := ["2", "Bob", "09:05", "Present"], display := false } := by
  have hA := c6_filter_shows_matching_rows c6St 0
    { cells := ["1", "Alice", "09:00", "Present"], display := true } (by decide)
  have hB := c6_filter_shows_matching_rows c6St 1
    { cells := ["2", "Bob", "09:05", "Present"], display := true } (by decide)
  exact ⟨hA.1, hA.2.1, by rw [hA.2.2.1]; decide, by rw [hB.2.2.1]; decide⟩

/-- C7: with a token present, a reachable server answering a non-2xx,
non-401 status and a transport-level failure yield two different
user-facing messages, both on the attendance load path ("Failed to load
attendance data." vs "Server unreachable.") and on the export path
("Failed to download report." vs "Server unreachable."). -/
theorem c7_distinct_failure_messages
    (st : St) (s : Nat) (body : List Record) (blob : String) (t : String)
    (htok : st.store.token = some t) (hne : t ≠ "")
    (hs2xx : ¬(200 ≤ s ∧ s ≤ 299)) (hs401 : s ≠ 401) :
    (loadAttendance st (.response s body)).errorMsg = "Failed to load attendance data." ∧
    (loadAttendance st .netError).errorMsg = "Server unreachable." ∧
    (downloadReport st (.response s blob)).alerts = st.alerts ++ ["Failed to download report."] ∧
    (downloadReport st .netError).alerts = st.alerts ++ ["Server unreachable."] ∧
    ("Failed to load attendance data." : String) ≠ "Server unreachable." ∧
    ("Failed to download report." : String) ≠ "Server unreachable." := by
  have h200 : s ≠ 200 := by
    rintro rfl
    exact hs2xx (by omega)
  refine ⟨?_, ?_, ?_, ?_, by decide, by decide⟩ <;>
    simp [loadAttendance, downloadReport, htok, hne, h200, hs401]

theorem c7_witness :
    (loadAttendance sampleSt (.response 500 [])).errorMsg =
      "Failed to load attendance data." ∧
    (loadAttendance sampleSt .netError).errorMsg = "Server unreachable." ∧
    (downloadReport sampleSt (.response 500 "x")).alerts =
      sampleSt.alerts ++ ["Failed to download report."] ∧
    (downloadReport sampleSt .netError).alerts =
      sampleSt.alerts ++ ["Server unreachable."] ∧
    ("Failed to load attendance data." : String) ≠ "Server unreachable." ∧
    ("Failed to download report." : String) ≠ "Server unreachable." :=
  c7_distinct_failure_messages sampleSt 500 [] "x" "tok" rfl (by decide)
    (by omega) (by omega)

end SmartAttendance
